import Mathlib

/-!
Shallow embedding of the trust / emotion / fate core of the fizban-world
repository (files `fizban_trust_math.py`, `fizban_agent.py`, `fizban_fate.py`,
`fizban_sim_round.py`, `fizban_world_state.py`, `fizban_alignment_math.py`).

Python floats are modelled by `ℚ` (the dynamics use only field operations and
comparisons with exact decimal constants); the alignment-compatibility map,
which takes a real square root, is modelled over `ℝ`.  Python `raise` is
modelled by `Except String`.  The two places the code draws `random.random()`
or `random.randint(1, 20)` take the draw(s) as explicit arguments.
-/

namespace Fizban

/-- Python `str.upper()` (the outcome codes are ASCII), modelled
character-wise: uppercase every character of the string.  This is the same
function as `String.toUpper` (by `String.map_eq`), but written by structural
recursion over the character list so that it evaluates definitionally. -/
def strUpper (s : String) : String :=
  ⟨s.data.map Char.toUpper⟩

/-- `clamp` from `fizban_trust_math.py` / `fizban_fate.py`:
`lo if v < lo else hi if v > hi else v`, generic over the number model. -/
def clamp {α : Type} [LinearOrder α] (v lo hi : α) : α :=
  if v < lo then lo else if v > hi then hi else v

/-- `TrustState` dataclass from `fizban_trust_math.py`, parametric in the
number model (`ℚ` for the update dynamics, `ℝ` for initialization, which
involves the square-root based alignment compatibility). -/
structure TrustState (α : Type) where
  affinity : α
  gossip_bias : α
  awe : α
  boredom : α
  last_outcome : String
  betrayal_count : α
  cooperation_streak : α
  expected_strategy : String
deriving Repr, DecidableEq

/-- The deltas dictionary returned by `update_trust_state`. -/
structure TrustDeltas where
  delta_affinity : ℚ
  delta_betrayal : ℚ
  delta_coop_streak : ℚ
  delta_grace : ℚ
  delta_mental_strain : ℚ
deriving Repr, DecidableEq

/-- `_outcome_effects` from `fizban_trust_math.py`: for a single round outcome
compute `(delta_affinity, delta_betrayal, delta_coop_streak)`; unknown outcome
codes raise `ValueError`. -/
def outcomeEffects (_state : TrustState ℚ) (outcome : String) :
    Except String (ℚ × ℚ × ℚ) :=
  let outcome := strUpper outcome
  if outcome ∉ ["CC", "CD", "DC", "DD"] then
    .error ("Unknown outcome: " ++ outcome)
  else
    let base_step : ℚ := 0.15
    if outcome = "CC" then .ok (base_step, (0 : ℚ), (1 : ℚ))
    else if outcome = "CD" then .ok (-2 * base_step, (1 : ℚ), (0 : ℚ))
    else if outcome = "DC" then .ok (-0.05, (0 : ℚ), (0 : ℚ))
    else if outcome = "DD" then .ok (-0.1, (0 : ℚ), (0 : ℚ))
    else .ok (0, (0 : ℚ), (0 : ℚ))

/-- `update_trust_state` from `fizban_trust_math.py`.  Returns the new state
together with the deltas dictionary, or the `ValueError` raised by
`_outcome_effects` on an unknown outcome code. -/
def update_trust_state (state : TrustState ℚ) (outcome : String)
    (awe_boost boredom_boost gossip_delta : ℚ := 0) (bounce : ℚ := 0.1) :
    Except String (TrustState ℚ × TrustDeltas) :=
  let outcome := strUpper outcome
  match outcomeEffects state outcome with
  | .error e => .error e
  | .ok (daff, dbetray, dcoop) =>
  let affinity := state.affinity
  let betrayal := state.betrayal_count
  let coop_streak := state.cooperation_streak
  let affinity := affinity + daff
  let betrayal := betrayal + dbetray
  let coop_streak := if outcome = "CC" then coop_streak + dcoop else 0
  let gossip := clamp (state.gossip_bias + gossip_delta) (-1) 1
  let awe := clamp (state.awe + awe_boost) 0 1
  let boredom := clamp (state.boredom + boredom_boost) 0 1
  let affinity :=
    if bounce > 0 then
      affinity - (bounce * (0.5 + 0.5 * boredom)) * affinity
    else affinity
  let affinity := clamp affinity (-1) 1
  let delta_mental_strain := 0.1 * dbetray - 0.02 * dcoop
  let delta_grace := 0.05 * dcoop - 0.05 * dbetray
  let new_state : TrustState ℚ :=
    { affinity := affinity
      gossip_bias := gossip
      awe := awe
      boredom := boredom
      last_outcome := outcome
      betrayal_count := betrayal
      cooperation_streak := coop_streak
      expected_strategy := state.expected_strategy }
  let deltas : TrustDeltas :=
    { delta_affinity := daff
      delta_betrayal := dbetray
      delta_coop_streak := dcoop
      delta_grace := delta_grace
      delta_mental_strain := delta_mental_strain }
  .ok (new_state, deltas)

/-- `law_axis` literal values from `fizban_agent.py`. -/
inductive LawAxis where
  | lawful | neutral | chaotic
deriving Repr, DecidableEq

/-- `moral_axis` literal values from `fizban_agent.py`. -/
inductive MoralAxis where
  | good | neutral | evil
deriving Repr, DecidableEq

/-- `Alignment` dataclass from `fizban_agent.py` (two discrete axes). -/
structure Alignment where
  law_axis : LawAxis := .neutral
  moral_axis : MoralAxis := .neutral
deriving Repr, DecidableEq

/-- `Complacence` dataclass from `fizban_agent.py`. -/
structure Complacence where
  mode : String := "neutral"
  level : ℚ := 0
deriving Repr, DecidableEq

/-- `EmotionState` dataclass from `fizban_agent.py`. -/
structure EmotionState where
  valence : ℚ := 0
  arousal : ℚ := 0
  stance : ℚ := 0
  complacence : Complacence := {}
  strain : ℚ := 0
  weird_mode : Bool := false
deriving Repr, DecidableEq

/-- `TitaniasGrace` dataclass from `fizban_agent.py` (boons kept as
name/rank pairs). -/
structure TitaniasGrace where
  class_name : String := "commoner"
  job : String := "villager"
  level : ℤ := 1
  alignment_shift_tendency : String := "stable"
  boons : List (String × ℤ) := []
  fate_bias_toward_trust : ℚ := 0
  fate_bias_toward_betrayal : ℚ := 0
deriving Repr, DecidableEq

/-- `BounceBack` dataclass from `fizban_agent.py`. -/
structure BounceBack where
  resilience : ℚ := 0.5
  resentment : ℚ := 0
  cooldown : ℤ := 0
deriving Repr, DecidableEq

/-- `RelationshipState` dataclass from `fizban_agent.py`. -/
structure RelationshipState where
  tier : String := "stranger"
  affinity : ℚ := 0
  romantic : Bool := false
deriving Repr, DecidableEq

/-- `AgentState` dataclass from `fizban_agent.py`; the Python dict fields
(`trust_matrix`, `gossip_bias`, `relationships`) become association lists. -/
structure AgentState where
  id : String
  name : String
  kind : String := "human"
  tags : List String := []
  alignment : Alignment := {}
  trust_strategy : String := "copycat"
  trust_matrix : List (String × ℚ) := []
  gossip_bias : List (String × ℚ) := []
  emotion : EmotionState := {}
  titanias_grace : TitaniasGrace := {}
  bounce_back : BounceBack := {}
  relationships : List (String × RelationshipState) := []
deriving Repr, DecidableEq

/-- Python dict assignment `m[k] = v` on an association list. -/
def setEntry {β : Type} (m : List (String × β)) (k : String) (v : β) :
    List (String × β) :=
  match m with
  | [] => [(k, v)]
  | (k', v') :: rest =>
      if k' = k then (k, v) :: rest else (k', v') :: setEntry rest k v

/-- `AgentState.get_trust` from `fizban_agent.py`: direct trust if present,
else gossip baseline, else 0. -/
def AgentState.get_trust (self : AgentState) (other_id : String) : ℚ :=
  match self.trust_matrix.lookup other_id with
  | some t => t
  | none =>
    match self.gossip_bias.lookup other_id with
    | some g => g
    | none => 0

/-- `AgentState.update_trust_after_interaction` from `fizban_agent.py`:
signed-outcome trust update with asymmetric learning rates and
Titania's-Grace / alignment modulation, clamped to `[-1, 1]`. -/
def AgentState.update_trust_after_interaction (self : AgentState)
    (other_id : String) (outcome : ℚ) : AgentState :=
  let current := (self.trust_matrix.lookup other_id).getD 0
  let pos_lr : ℚ := 0.15
  let neg_lr : ℚ := 0.35
  let neu_lr : ℚ := 0.05
  let bias_trust := self.titanias_grace.fate_bias_toward_trust
  let bias_betrayal := self.titanias_grace.fate_bias_toward_betrayal
  let lr :=
    if outcome > 0 then pos_lr * (1 + bias_trust)
    else if outcome < 0 then
      let lr := neg_lr * (1 + bias_betrayal)
      if self.alignment.moral_axis = .good then lr * 1.2
      else if self.alignment.moral_axis = .evil then lr * 0.8
      else lr
    else neu_lr
  let delta := lr * outcome
  let new_trust := current + delta
  let new_trust := if new_trust > 1 then 1 else new_trust
  let new_trust := if new_trust < -1 then -1 else new_trust
  { self with trust_matrix := setEntry self.trust_matrix other_id new_trust }

/-- `AgentState.apply_emotional_impact` from `fizban_agent.py`: valence,
strain and resentment updates plus the hysteresis-gated `weird_mode`
toggle. -/
def AgentState.apply_emotional_impact (self : AgentState)
    (payoff_emotion : ℚ) (betrayal : Bool)
    (other_id : Option String := none) : AgentState :=
  let v := self.emotion.valence + 0.4 * payoff_emotion
  let v := if betrayal then v - 0.3 else v
  let v := if v > 1 then 1 else v
  let v := if v < -1 then -1 else v
  let s := self.emotion.strain
  let s :=
    if betrayal then
      let distrust :=
        match other_id with
        | none => 0
        | some oid => max 0 (-(self.get_trust oid))
      s + 0.2 + 0.1 * distrust
    else s * 0.9
  let s := if s > 1 then 1 else s
  let s := if s < 0 then 0 else s
  let r := self.bounce_back.resentment
  let r := if betrayal then r * 0.8 + 0.25 else r * 0.9
  let r := if r > 1 then 1 else r
  let r := if r < 0 then 0 else r
  let weird :=
    if |v| > 0.95 ∨ s > 0.7 then true
    else if s < 0.3 ∧ |v| < 0.7 then false
    else self.emotion.weird_mode
  { self with
      emotion := { self.emotion with valence := v, strain := s, weird_mode := weird }
      bounce_back := { self.bounce_back with resentment := r } }

/-- `payoff` from `fizban_sim_round.py`: classic Prisoner's-Dilemma payoff
matrix. -/
def payoff (a b : String) : ℚ × ℚ :=
  if a = "C" ∧ b = "C" then (2, 2)
  else if a = "C" ∧ b = "D" then (-1, 3)
  else if a = "D" ∧ b = "C" then (3, -1)
  else (0, 0)

/-- `shared_interest_score` from `fizban_sim_round.py`: Jaccard similarity of
the two agents' tag sets, 0 when either set is empty. -/
def shared_interest_score (a b : AgentState) : ℚ :=
  let set_a := a.tags.toFinset
  let set_b := b.tags.toFinset
  if set_a = ∅ ∨ set_b = ∅ then 0
  else
    let inter := (set_a ∩ set_b).card
    let union := (set_a ∪ set_b).card
    if union = 0 then 0 else (inter : ℚ) / (union : ℚ)

/-- `base_action_from_strategy` from `fizban_sim_round.py`.  `draw` stands
for the `random.random()` call made by the `simpleton` / `random`
strategies. -/
def base_action_from_strategy (agent : AgentState) (other_id : String)
    (draw : ℚ) : String :=
  let strat := agent.trust_strategy
  if strat = "cooperator" then "C"
  else if strat = "cheater" then "D"
  else
    let t := agent.get_trust other_id
    if strat = "copycat" then (if t ≥ -0.2 then "C" else "D")
    else if strat = "copykitten" then (if t > -0.4 then "C" else "D")
    else if strat = "grudger" then (if t ≥ 0 then "C" else "D")
    else if strat = "simpleton" then (if draw < 0.6 then "C" else "D")
    else if strat = "random" then (if draw < 0.5 then "C" else "D")
    else "C"

/-- `align_bias` from `fizban_sim_round.py`: moral-axis pairing plus
shared-interest bias, clamped to `[-0.3, 0.3]`. -/
def align_bias (a b : AgentState) (shared_interest : ℚ) : ℚ :=
  let bias : ℚ := 0
  let bias :=
    if a.alignment.moral_axis = .good ∧ b.alignment.moral_axis = .good then
      bias + 0.1
    else if (a.alignment.moral_axis = .good ∧ b.alignment.moral_axis = .evil) ∨
        (a.alignment.moral_axis = .evil ∧ b.alignment.moral_axis = .good) then
      bias - 0.1
    else bias
  let bias := bias + 0.2 * shared_interest
  let bias := if bias > 0.3 then 0.3 else bias
  let bias := if bias < -0.3 then -0.3 else bias
  bias

/-- `relationship_coop_bias` from `fizban_sim_round.py`: ally/lover push
toward cooperation, rival push away, clamped to `[-0.5, 0.5]`. -/
def relationship_coop_bias (agent : AgentState) (other_id : String) : ℚ :=
  match agent.relationships.lookup other_id with
  | none => 0
  | some rel =>
    let bias : ℚ := 0
    let bias :=
      if rel.tier ∈ ["ally", "permanent_follower", "love_interest"] ∧
          rel.affinity > 0 then
        bias + 0.2 * rel.affinity
      else bias
    let bias :=
      if rel.tier = "rival" ∧ rel.affinity < 0 then
        bias - 0.2 * (-rel.affinity)
      else bias
    let bias := if rel.romantic ∧ rel.affinity > 0.5 then bias + 0.1 else bias
    let bias := if bias > 0.5 then 0.5 else bias
    let bias := if bias < -0.5 then -0.5 else bias
    bias

/-- The clamped cooperation probability computed inside `decide_action` in
`fizban_sim_round.py` (`p_coop` after both biases and the `[0,1]` clamp). -/
def coopProbability (agent other : AgentState) (s_interest : ℚ) : ℚ :=
  let t := agent.get_trust other.id
  let trust_p := 0.5 * (t + 1)
  let p_coop := trust_p
  let p_coop := p_coop + align_bias agent other s_interest
  let p_coop := p_coop + relationship_coop_bias agent other.id
  let p_coop := if p_coop < 0 then 0 else p_coop
  let p_coop := if p_coop > 1 then 1 else p_coop
  p_coop

/-- `decide_action` from `fizban_sim_round.py`: three-zone policy around the
strategy baseline. -/
def decide_action (agent other : AgentState) (s_interest : ℚ) (draw : ℚ) :
    String :=
  let base := base_action_from_strategy agent other.id draw
  let p_coop := coopProbability agent other s_interest
  if p_coop ≥ 0.7 then "C"
  else if p_coop ≤ 0.3 then "D"
  else base

/-- `outcome_for` (local function inside `run_round` in
`fizban_sim_round.py`): signed per-perspective outcome value. -/
def outcome_for (me_action other_action : String) : ℚ :=
  if me_action = "C" ∧ other_action = "C" then 1
  else if me_action = "D" ∧ other_action = "D" then 0
  else if me_action = "C" ∧ other_action = "D" then -1
  else if me_action = "D" ∧ other_action = "C" then 1
  else 0

/-- The summary dict built by `run_round` in `fizban_sim_round.py`. -/
structure RoundSummary where
  a_id : String
  b_id : String
  action_a : String
  action_b : String
  payoff_a_raw : ℚ
  payoff_b_raw : ℚ
  payoff_a_emotion : ℚ
  payoff_b_emotion : ℚ
  betrayal_a : Bool
  betrayal_b : Bool
  shared_interest : ℚ
  trust_a_after : ℚ
  trust_b_after : ℚ
  emotion_a_valence : ℚ
  emotion_b_valence : ℚ
  strain_a : ℚ
  strain_b : ℚ
  cooldown_a : ℤ
  cooldown_b : ℤ
  weird_mode_a : Bool
  weird_mode_b : Bool
deriving Repr, DecidableEq

/-- The forced-action check at the top of `run_round`
(`if forced_action_a in ("C", "D")`): a forced "C"/"D" wins, anything else
(including `None`) falls back to the decision logic. -/
def pickAction (forced : Option String) (fallback : String) : String :=
  match forced with
  | some f => if f = "C" ∨ f = "D" then f else fallback
  | none => fallback

/-- `run_round` from `fizban_sim_round.py`.  `draw_a` / `draw_b` stand for
the `random.random()` draw a probabilistic strategy would make for that
side. -/
def run_round (agent_a agent_b : AgentState)
    (forced_action_a forced_action_b : Option String := none)
    (draw_a draw_b : ℚ := 0) :
    RoundSummary × AgentState × AgentState :=
  let s_interest := shared_interest_score agent_a agent_b
  let action_a := pickAction forced_action_a
    (decide_action agent_a agent_b s_interest draw_a)
  let action_b := pickAction forced_action_b
    (decide_action agent_b agent_a s_interest draw_b)
  let (payoff_a_raw, payoff_b_raw) := payoff action_a action_b
  let payoff_a_emotion := 0.25 * payoff_a_raw
  let payoff_b_emotion := 0.25 * payoff_b_raw
  let betrayal_a : Bool := action_a = "C" ∧ action_b = "D"
  let betrayal_b : Bool := action_b = "C" ∧ action_a = "D"
  let outcome_a := outcome_for action_a action_b
  let outcome_b := outcome_for action_b action_a
  let agent_a := agent_a.update_trust_after_interaction agent_b.id outcome_a
  let agent_b := agent_b.update_trust_after_interaction agent_a.id outcome_b
  let agent_a := agent_a.apply_emotional_impact payoff_a_emotion betrayal_a (some agent_b.id)
  let agent_b := agent_b.apply_emotional_impact payoff_b_emotion betrayal_b (some agent_a.id)
  let agent_a :=
    if betrayal_a ∨ agent_a.emotion.strain > 0.5 then
      { agent_a with bounce_back :=
          { agent_a.bounce_back with cooldown := max agent_a.bounce_back.cooldown 2 } }
    else if agent_a.bounce_back.cooldown > 0 then
      { agent_a with bounce_back :=
          { agent_a.bounce_back with cooldown := agent_a.bounce_back.cooldown - 1 } }
    else agent_a
  let agent_b :=
    if betrayal_b ∨ agent_b.emotion.strain > 0.5 then
      { agent_b with bounce_back :=
          { agent_b.bounce_back with cooldown := max agent_b.bounce_back.cooldown 2 } }
    else if agent_b.bounce_back.cooldown > 0 then
      { agent_b with bounce_back :=
          { agent_b.bounce_back with cooldown := agent_b.bounce_back.cooldown - 1 } }
    else agent_b
  let summary : RoundSummary :=
    { a_id := agent_a.id
      b_id := agent_b.id
      action_a := action_a
      action_b := action_b
      payoff_a_raw := payoff_a_raw
      payoff_b_raw := payoff_b_raw
      payoff_a_emotion := payoff_a_emotion
      payoff_b_emotion := payoff_b_emotion
      betrayal_a := betrayal_a
      betrayal_b := betrayal_b
      shared_interest := s_interest
      trust_a_after := agent_a.get_trust agent_b.id
      trust_b_after := agent_b.get_trust agent_a.id
      emotion_a_valence := agent_a.emotion.valence
      emotion_b_valence := agent_b.emotion.valence
      strain_a := agent_a.emotion.strain
      strain_b := agent_b.emotion.strain
      cooldown_a := agent_a.bounce_back.cooldown
      cooldown_b := agent_b.bounce_back.cooldown
      weird_mode_a := agent_a.emotion.weird_mode
      weird_mode_b := agent_b.emotion.weird_mode }
  (summary, agent_a, agent_b)

/-- `FateState` dataclass from `fizban_fate.py`. -/
structure FateState where
  grace : ℚ
  bounce_back : ℚ
  mental_strain : ℚ
  weird_mode : Bool
deriving Repr, DecidableEq

/-- `apply_trust_deltas_to_fate` from `fizban_fate.py`: integrate the trust
deltas into the fate state (grace drift, delta application, awe/boredom
strain adjustment, clamping, bounce-back lag, weird-mode trigger). -/
def apply_trust_deltas_to_fate (fate : FateState) (deltas : TrustDeltas)
    (awe boredom : ℚ) : FateState :=
  let g := fate.grace
  let s := fate.mental_strain
  let b := fate.bounce_back
  let d_grace := deltas.delta_grace
  let d_strain := deltas.delta_mental_strain
  let g := g + 0.02 * (0.5 - g)
  let g := g + d_grace
  let s := s + d_strain
  let s := s - 0.03 * awe
  let s := s + 0.03 * boredom
  let g := clamp g 0 1
  let s := clamp s 0 1
  let target_bounce := 0.3 + 0.7 * g - 0.5 * s
  let b := b + 0.1 * (target_bounce - b)
  let b := clamp b 0 1
  let weird : Bool := s > 0.7 ∨ (awe + s) > 1.2
  { grace := g
    bounce_back := b
    mental_strain := s
    weird_mode := weird }

/-- Python 3 `int(round(q))`: round half to even, as an integer. -/
def pyRound (q : ℚ) : ℤ :=
  let f := ⌊q⌋
  let r := q - (f : ℚ)
  if r < 1 / 2 then f
  else if 1 / 2 < r then f + 1
  else if f % 2 = 0 then f else f + 1

/-- The result dict of `roll_destiny` in `fizban_fate.py`. -/
structure RollResult where
  alignment : String
  base_roll : ℤ
  grace_mod : ℤ
  strain_penalty : ℤ
  total : ℤ
  dc : ℤ
  success : Bool
  roll_type : String
  fate_snapshot : FateState
deriving Repr, DecidableEq

/-- `roll_destiny` from `fizban_fate.py`.  `d1` / `d2` stand for the
`random.randint(1, 20)` draws; normal mode draws once (`d1`), weird mode
draws twice and takes max (advantage, `net ≥ 0`) or min (disadvantage,
`net < 0`). -/
def roll_destiny (fate : FateState) (alignment_label : String)
    (dc : ℤ := 12) (d1 d2 : ℤ := 0) : RollResult :=
  let grace_mod := pyRound ((fate.grace - 0.5) * 4)
  let strain_penalty := pyRound (fate.mental_strain * 2)
  let roll_type :=
    if fate.weird_mode then
      let net := fate.grace - fate.mental_strain
      if net ≥ 0 then "advantage" else "disadvantage"
    else "normal"
  let base_roll :=
    if roll_type = "normal" then d1
    else if roll_type = "advantage" then max d1 d2
    else min d1 d2
  let total := base_roll + grace_mod - strain_penalty
  { alignment := alignment_label
    base_roll := base_roll
    grace_mod := grace_mod
    strain_penalty := strain_penalty
    total := total
    dc := dc
    success := total ≥ dc
    roll_type := roll_type
    fate_snapshot := fate }

/-- The slice of `AgentRuntime` from `fizban_world_state.py` that
`destiny_roll_for_agent` reads (`config.name`, `config.alignment.label`,
`fate`). -/
structure AgentRuntime where
  name : String
  alignment_label : String
  fate : FateState
deriving Repr, DecidableEq

/-- The result dict of `destiny_roll_for_agent` in `fizban_world_state.py`. -/
structure DestinyRollResult where
  agent : String
  alignment : String
  base_roll : ℤ
  grace_mod : ℤ
  strain_penalty : ℤ
  total : ℤ
  dc : ℤ
  success : Bool
  roll_type : String
  fate_snapshot : FateState
deriving Repr, DecidableEq

/-- `destiny_roll_for_agent` from `fizban_world_state.py`: caller-supplied
advantage/disadvantage flags (both set cancels both), no weird-mode
handling; `d1` / `d2` stand for the d20 draws (`d1` is the first draw and
the normal-mode roll). -/
def destiny_roll_for_agent (agent : AgentRuntime) (dc : ℤ := 12)
    (advantage disadvantage : Bool := false) (d1 d2 : ℤ := 0) :
    DestinyRollResult :=
  let both : Bool := advantage ∧ disadvantage
  let advantage := if both then false else advantage
  let disadvantage := if both then false else disadvantage
  let base_roll :=
    if advantage then max d1 d2
    else if disadvantage then min d1 d2
    else d1
  let grace_mod := pyRound ((agent.fate.grace - 0.5) * 4)
  let strain_penalty := pyRound (agent.fate.mental_strain * 4)
  let total := base_roll + grace_mod - strain_penalty
  { agent := agent.name
    alignment := agent.alignment_label
    base_roll := base_roll
    grace_mod := grace_mod
    strain_penalty := strain_penalty
    total := total
    dc := dc
    success := total ≥ dc
    roll_type :=
      if advantage then "advantage"
      else if disadvantage then "disadvantage"
      else "normal"
    fate_snapshot := agent.fate }

/-- The nine canonical alignment labels from `fizban_alignment_math.py`. -/
inductive AlignmentLabel where
  | lawfulGood | neutralGood | chaoticGood
  | lawfulNeutral | trueNeutral | chaoticNeutral
  | lawfulEvil | neutralEvil | chaoticEvil
deriving Repr, DecidableEq

/-- The `law_chaos` coordinate of `_ALIGNMENT_TO_AXES` in
`fizban_alignment_math.py` (LAWFUL = +1, NEUTRAL = 0, CHAOTIC = -1). -/
def AlignmentLabel.lawChaos : AlignmentLabel → ℤ
  | .lawfulGood | .lawfulNeutral | .lawfulEvil => 1
  | .neutralGood | .trueNeutral | .neutralEvil => 0
  | .chaoticGood | .chaoticNeutral | .chaoticEvil => -1

/-- The `good_evil` coordinate of `_ALIGNMENT_TO_AXES` in
`fizban_alignment_math.py` (GOOD = +1, NEUTRAL = 0, EVIL = -1). -/
def AlignmentLabel.goodEvil : AlignmentLabel → ℤ
  | .lawfulGood | .neutralGood | .chaoticGood => 1
  | .lawfulNeutral | .trueNeutral | .chaoticNeutral => 0
  | .lawfulEvil | .neutralEvil | .chaoticEvil => -1

/-- Squared Euclidean distance between two alignments on the 2D grid
(`dx*dx + dy*dy` inside `alignment_distance`). -/
def alignmentDistSq (a b : AlignmentLabel) : ℤ :=
  let dx := a.lawChaos - b.lawChaos
  let dy := a.goodEvil - b.goodEvil
  dx * dx + dy * dy

/-- `alignment_distance` from `fizban_alignment_math.py`: Euclidean distance
on the 3x3 grid, as a real number. -/
noncomputable def alignment_distance (a b : AlignmentLabel) : ℝ :=
  Real.sqrt (alignmentDistSq a b : ℝ)

/-- `alignment_compatibility` from `fizban_alignment_math.py`:
`1 - min(d / sqrt 8, 1)`, a real number in `[0, 1]`. -/
noncomputable def alignment_compatibility (a b : AlignmentLabel) : ℝ :=
  1 - min (alignment_distance a b / Real.sqrt 8) 1

/-- `compatibility_to_affinity` from `fizban_trust_math.py`:
map compatibility `[0,1]` to affinity `[-1,1]`. -/
def compatibility_to_affinity (comp : ℝ) : ℝ :=
  2 * comp - 1

/-- `suggest_default_strategy` from `fizban_alignment_math.py`. -/
def suggest_default_strategy : AlignmentLabel → String
  | .lawfulGood => "Copykitten"
  | .neutralGood => "Cooperator"
  | .chaoticGood => "Simpleton"
  | .lawfulNeutral => "Grudger"
  | .trueNeutral => "Random"
  | .chaoticNeutral => "Random"
  | .lawfulEvil => "Detective"
  | .neutralEvil => "Cheater"
  | .chaoticEvil => "Cheater"

/-- `init_trust_state` from `fizban_trust_math.py`: initial trust toward
another agent from the two alignments plus optional clamped base biases. -/
noncomputable def init_trust_state (my_alignment other_alignment : AlignmentLabel)
    (base_gossip base_awe base_boredom : ℝ := 0) : TrustState ℝ :=
  let comp := alignment_compatibility my_alignment other_alignment
  let affinity := compatibility_to_affinity comp
  let gossip := clamp base_gossip (-1) 1
  let awe := clamp base_awe 0 1
  let boredom := clamp base_boredom 0 1
  { affinity := affinity
    gossip_bias := gossip
    awe := awe
    boredom := boredom
    last_outcome := ""
    betrayal_count := 0
    cooperation_streak := 0
    expected_strategy := suggest_default_strategy other_alignment }

/-! ### Update sequences and range invariants

The spec's boundedness invariant quantifies over arbitrary sequences of
updates; we model a sequence as a `List.foldl` of the corresponding step
function.  An invalid outcome code raises in Python, leaving the caller's
state unchanged, so the trust step keeps the previous state in that case. -/

/-- One call's worth of arguments to `update_trust_state`. -/
structure TrustUpdateArgs where
  outcome : String
  awe_boost : ℚ := 0
  boredom_boost : ℚ := 0
  gossip_delta : ℚ := 0
  bounce : ℚ := 0.1
deriving Repr, DecidableEq

/-- One `update_trust_state` call; a raised `ValueError` leaves the state
unchanged. -/
def trustStep (st : TrustState ℚ) (u : TrustUpdateArgs) : TrustState ℚ :=
  match update_trust_state st u.outcome u.awe_boost u.boredom_boost
      u.gossip_delta u.bounce with
  | .ok (st', _) => st'
  | .error _ => st

/-- A sequence of `update_trust_state` calls. -/
def runTrustUpdates (st : TrustState ℚ) (us : List TrustUpdateArgs) :
    TrustState ℚ :=
  us.foldl trustStep st

/-- The declared ranges of the `TrustState` fields. -/
def TrustInv (st : TrustState ℚ) : Prop :=
  -1 ≤ st.affinity ∧ st.affinity ≤ 1 ∧
  -1 ≤ st.gossip_bias ∧ st.gossip_bias ≤ 1 ∧
  0 ≤ st.awe ∧ st.awe ≤ 1 ∧
  0 ≤ st.boredom ∧ st.boredom ≤ 1 ∧
  0 ≤ st.betrayal_count ∧ 0 ≤ st.cooperation_streak

instance (st : TrustState ℚ) : Decidable (TrustInv st) := by
  unfold TrustInv; infer_instance

/-- One call's worth of arguments to `AgentState.apply_emotional_impact`. -/
structure EmotionArgs where
  payoff_emotion : ℚ
  betrayal : Bool
  other_id : Option String := none
deriving Repr, DecidableEq

/-- One `apply_emotional_impact` call. -/
def emotionStep (a : AgentState) (e : EmotionArgs) : AgentState :=
  a.apply_emotional_impact e.payoff_emotion e.betrayal e.other_id

/-- A sequence of `apply_emotional_impact` calls. -/
def runEmotionUpdates (a : AgentState) (es : List EmotionArgs) : AgentState :=
  es.foldl emotionStep a

/-- The declared ranges of the fields `apply_emotional_impact` updates. -/
def EmotionInv (a : AgentState) : Prop :=
  -1 ≤ a.emotion.valence ∧ a.emotion.valence ≤ 1 ∧
  0 ≤ a.emotion.strain ∧ a.emotion.strain ≤ 1 ∧
  0 ≤ a.bounce_back.resentment ∧ a.bounce_back.resentment ≤ 1

instance (a : AgentState) : Decidable (EmotionInv a) := by
  unfold EmotionInv; infer_instance

/-- One call's worth of arguments to `apply_trust_deltas_to_fate`. -/
structure FateArgs where
  deltas : TrustDeltas
  awe : ℚ
  boredom : ℚ
deriving Repr, DecidableEq

/-- One `apply_trust_deltas_to_fate` call. -/
def fateStep (f : FateState) (u : FateArgs) : FateState :=
  apply_trust_deltas_to_fate f u.deltas u.awe u.boredom

/-- A sequence of `apply_trust_deltas_to_fate` calls. -/
def runFateUpdates (f : FateState) (us : List FateArgs) : FateState :=
  us.foldl fateStep f

/-- The declared ranges of the `FateState` fields. -/
def FateInv (f : FateState) : Prop :=
  0 ≤ f.grace ∧ f.grace ≤ 1 ∧
  0 ≤ f.mental_strain ∧ f.mental_strain ≤ 1 ∧
  0 ≤ f.bounce_back ∧ f.bounce_back ≤ 1

instance (f : FateState) : Decidable (FateInv f) := by
  unfold FateInv; infer_instance

/-! ### Helper lemmas -/

theorem clamp_bounds {α : Type} [LinearOrder α] (v : α) {lo hi : α}
    (h : lo ≤ hi) : lo ≤ clamp v lo hi ∧ clamp v lo hi ≤ hi := by
  unfold clamp
  split_ifs with h1 h2
  · exact ⟨le_rfl, h⟩
  · exact ⟨h, le_rfl⟩
  · exact ⟨not_lt.mp h1, not_lt.mp h2⟩

theorem outcomeEffects_ok_ranges (st : TrustState ℚ) (o : String)
    {d db dc : ℚ} (h : outcomeEffects st o = .ok (d, db, dc)) :
    (db = 0 ∨ db = 1) ∧ (dc = 0 ∨ dc = 1) := by
  simp only [outcomeEffects] at h
  split_ifs at h <;>
    (simp only [Except.ok.injEq, Prod.mk.injEq] at h
     obtain ⟨-, hdb, hdc⟩ := h
     subst hdb
     subst hdc
     norm_num)

theorem trustStep_trustInv (st : TrustState ℚ) (u : TrustUpdateArgs)
    (h : TrustInv st) : TrustInv (trustStep st u) := by
  unfold trustStep
  cases heq : update_trust_state st u.outcome u.awe_boost u.boredom_boost
      u.gossip_delta u.bounce with
  | error e => exact h
  | ok p =>
    obtain ⟨st', d⟩ := p
    simp only [update_trust_state] at heq
    cases heff : outcomeEffects st (strUpper u.outcome) with
    | error e => rw [heff] at heq; exact absurd heq (by simp)
    | ok t =>
      obtain ⟨daff, db, dc⟩ := t
      rw [heff] at heq
      simp only [Except.ok.injEq, Prod.mk.injEq] at heq
      obtain ⟨hst, -⟩ := heq
      obtain ⟨hdb, hdc⟩ := outcomeEffects_ok_ranges st _ heff
      obtain ⟨-, -, -, -, -, -, -, -, hbc, hcs⟩ := h
      subst hst
      unfold TrustInv
      refine ⟨(clamp_bounds _ (by norm_num)).1, (clamp_bounds _ (by norm_num)).2,
        (clamp_bounds _ (by norm_num)).1, (clamp_bounds _ (by norm_num)).2,
        (clamp_bounds _ (by norm_num)).1, (clamp_bounds _ (by norm_num)).2,
        (clamp_bounds _ (by norm_num)).1, (clamp_bounds _ (by norm_num)).2,
        ?_, ?_⟩
      · rcases hdb with rfl | rfl <;> linarith
      · dsimp only
        split_ifs
        · rcases hdc with rfl | rfl <;> linarith
        · exact le_rfl

theorem emotionStep_emotionInv (a : AgentState) (e : EmotionArgs) :
    EmotionInv (emotionStep a e) := by
  unfold emotionStep AgentState.apply_emotional_impact EmotionInv
  dsimp only
  refine ⟨?_, ?_, ?_, ?_, ?_, ?_⟩ <;> split_ifs <;> linarith

theorem fateStep_fateInv (f : FateState) (u : FateArgs) :
    FateInv (fateStep f u) := by
  unfold fateStep apply_trust_deltas_to_fate FateInv
  dsimp only
  exact ⟨(clamp_bounds _ (by norm_num)).1, (clamp_bounds _ (by norm_num)).2,
    (clamp_bounds _ (by norm_num)).1, (clamp_bounds _ (by norm_num)).2,
    (clamp_bounds _ (by norm_num)).1, (clamp_bounds _ (by norm_num)).2⟩

theorem runTrustUpdates_inv (us : List TrustUpdateArgs) (st : TrustState ℚ)
    (h : TrustInv st) : TrustInv (runTrustUpdates st us) := by
  induction us generalizing st with
  | nil => exact h
  | cons u us ih => exact ih _ (trustStep_trustInv st u h)

theorem runEmotionUpdates_inv (es : List EmotionArgs) (a : AgentState)
    (h : EmotionInv a) : EmotionInv (runEmotionUpdates a es) := by
  induction es generalizing a with
  | nil => exact h
  | cons e es ih => exact ih _ (emotionStep_emotionInv a e)

theorem runFateUpdates_inv (us : List FateArgs) (f : FateState)
    (h : FateInv f) : FateInv (runFateUpdates f us) := by
  induction us generalizing f with
  | nil => exact h
  | cons u us ih => exact ih _ (fateStep_fateInv f u)

/-! ### Concrete states used by witnesses and counterexamples -/

/-- A neutral in-range trust state (the state `init_trust_state` would
produce for two True Neutral agents with no base biases). -/
def trustSt0 : TrustState ℚ :=
  { affinity := 0
    gossip_bias := 0
    awe := 0
    boredom := 0
    last_outcome := ""
    betrayal_count := 0
    cooperation_streak := 0
    expected_strategy := "Random" }

/-- A default agent with id `"a"`. -/
def agentA0 : AgentState := { id := "a", name := "A" }

/-- A default agent with id `"b"`. -/
def agentB0 : AgentState := { id := "b", name := "B" }

/-- An in-range fate state. -/
def fate0 : FateState :=
  { grace := 1, bounce_back := 0, mental_strain := 0, weird_mode := false }

/-- The deltas a `CD` round produces. -/
def deltasCD : TrustDeltas :=
  { delta_affinity := -0.3
    delta_betrayal := 1
    delta_coop_streak := 0
    delta_grace := -0.05
    delta_mental_strain := 0.1 }

/-! ### Claims -/

/-- C1: Boundedness invariant — starting from any state whose fields are in
their declared ranges, every sequence of `update_trust_state` calls keeps
affinity and gossip_bias in [-1,1], awe and boredom in [0,1], and the
betrayal/cooperation counters nonnegative; every sequence of
`apply_emotional_impact` calls keeps valence in [-1,1] and strain and
resentment in [0,1]; and every sequence of `apply_trust_deltas_to_fate`
calls keeps grace, mental_strain and bounce_back in [0,1]. -/
theorem boundedness_invariant :
    (∀ (st : TrustState ℚ) (us : List TrustUpdateArgs),
      TrustInv st → TrustInv (runTrustUpdates st us)) ∧
    (∀ (a : AgentState) (es : List EmotionArgs),
      EmotionInv a → EmotionInv (runEmotionUpdates a es)) ∧
    (∀ (f : FateState) (us : List FateArgs),
      FateInv f → FateInv (runFateUpdates f us)) :=
  ⟨fun st us h => runTrustUpdates_inv us st h,
   fun a es h => runEmotionUpdates_inv es a h,
   fun f us h => runFateUpdates_inv us f h⟩

/-- Witness for C1 at concrete inputs: a neutral trust state through a
betrayal round, a fresh agent through a betrayal impact, and a mid-range
fate state through a betrayal delta. -/
theorem boundedness_invariant_witness :
    (TrustInv trustSt0 ∧
      TrustInv (runTrustUpdates trustSt0 [{ outcome := "CD" }])) ∧
    (EmotionInv agentA0 ∧
      EmotionInv (runEmotionUpdates agentA0
        [{ payoff_emotion := -0.25, betrayal := true, other_id := some "b" }])) ∧
    (FateInv fate0 ∧
      FateInv (runFateUpdates fate0 [{ deltas := deltasCD, awe := 0, boredom := 1 }])) :=
  ⟨⟨by decide, boundedness_invariant.1 trustSt0 _ (by decide)⟩,
   ⟨by decide, boundedness_invariant.2.1 agentA0 _ (by decide)⟩,
   ⟨by decide, boundedness_invariant.2.2 fate0 _ (by decide)⟩⟩

/-- The `delta_affinity` component `_outcome_effects` computes for a given
outcome code (0 if the outcome is invalid, a case that raises in Python). -/
def outcomeAffinityDelta (st : TrustState ℚ) (o : String) : ℚ :=
  match outcomeEffects st o with
  | .ok (d, _, _) => d
  | .error _ => 0

/-- C2: Betrayal asymmetry — for every trust state (and every
alignment-compatibility value, which the outcome effects do not read), the
magnitude of the CD affinity delta equals `2 * base_step = 0.30` and
strictly exceeds the magnitude of the CC affinity delta, which is at most
`+0.15`. -/
theorem betrayal_asymmetry (st : TrustState ℚ) (_align_compat : ℚ) :
    |outcomeAffinityDelta st "CD"| = 2 * 0.15 ∧
    |outcomeAffinityDelta st "CD"| = 0.30 ∧
    |outcomeAffinityDelta st "CC"| < |outcomeAffinityDelta st "CD"| ∧
    outcomeAffinityDelta st "CC" ≤ 0.15 := by
  have hcd : outcomeAffinityDelta st "CD" = -2 * 0.15 := rfl
  have hcc : outcomeAffinityDelta st "CC" = 0.15 := rfl
  rw [hcd, hcc]
  norm_num [abs_of_pos, abs_of_nonpos]

/-- The CC affinity gain as the spec words it:
`base_step * (0.5 + 0.5 * compat)`. -/
def ccGainSpec (compat : ℚ) : ℚ :=
  0.15 * (0.5 + 0.5 * compat)

/-- C3 counterexample: the code's CC affinity delta is the constant `0.15`
!= `base_step * (0.5 + 0.5*compat)`; at compatibility `0 < 1` the claimed
strict bound `gain < base_step` fails (the gain equals `base_step`). -/
theorem cc_gain_compat_cex :
    outcomeAffinityDelta trustSt0 "CC" = 0.15 ∧
    ¬(outcomeAffinityDelta trustSt0 "CC" < 0.15) ∧
    (0 : ℚ) < 1 ∧
    outcomeAffinityDelta trustSt0 "CC" ≠ ccGainSpec 0 := by
  have h : outcomeAffinityDelta trustSt0 "CC" = 0.15 := rfl
  rw [h]
  norm_num [ccGainSpec]

/-- C3 amended: `update_trust_state` takes no compatibility input; for every
state and every update arguments the CC affinity delta it reports is the
constant `base_step = 0.15`. -/
theorem cc_gain_constant (st : TrustState ℚ) (ab bb gd bn : ℚ) :
    Except.map (fun p => p.2.delta_affinity)
      (update_trust_state st "CC" ab bb gd bn) = .ok 0.15 ∧
    outcomeAffinityDelta st "CC" = 0.15 :=
  ⟨rfl, rfl⟩

/-- C4: Emotion weird_mode hysteresis — after `apply_emotional_impact`,
weird_mode is true if the updated `|valence| > 0.95` or updated
`strain > 0.7`; false if updated `strain < 0.3` and `|valence| < 0.7`;
otherwise it keeps its previous value.  In particular once true it stays
true across any update whose post-update state has `strain ≥ 0.3` or
`|valence| ≥ 0.7`. -/
theorem weird_mode_hysteresis (a : AgentState) (p : ℚ) (betr : Bool)
    (oid : Option String) :
    (let a' := a.apply_emotional_impact p betr oid
     a'.emotion.weird_mode =
      (if |a'.emotion.valence| > 0.95 ∨ a'.emotion.strain > 0.7 then true
       else if a'.emotion.strain < 0.3 ∧ |a'.emotion.valence| < 0.7 then false
       else a.emotion.weird_mode)) ∧
    (a.emotion.weird_mode = true →
      ((a.apply_emotional_impact p betr oid).emotion.strain ≥ 0.3 ∨
        |(a.apply_emotional_impact p betr oid).emotion.valence| ≥ 0.7) →
      (a.apply_emotional_impact p betr oid).emotion.weird_mode = true) := by
  refine ⟨rfl, fun h1 h2 => ?_⟩
  have hmain : (a.apply_emotional_impact p betr oid).emotion.weird_mode =
      (if |(a.apply_emotional_impact p betr oid).emotion.valence| > 0.95 ∨
          (a.apply_emotional_impact p betr oid).emotion.strain > 0.7 then true
       else if (a.apply_emotional_impact p betr oid).emotion.strain < 0.3 ∧
          |(a.apply_emotional_impact p betr oid).emotion.valence| < 0.7 then false
       else a.emotion.weird_mode) := rfl
  rw [hmain]
  split_ifs with hA hB
  · rfl
  · rcases h2 with h2 | h2
    · linarith [hB.1]
    · linarith [hB.2]
  · exact h1

/-- An agent already in weird mode with maximal strain. -/
def agentW : AgentState :=
  { id := "w", name := "W"
    emotion := { valence := 0, strain := 1, weird_mode := true } }

/-- Witness for C4: an agent in weird mode whose post-update strain (0.9
after the no-betrayal bleed-off) stays at or above 0.3 remains in weird
mode. -/
theorem weird_mode_hysteresis_witness :
    agentW.emotion.weird_mode = true ∧
    (agentW.apply_emotional_impact 0 false none).emotion.strain ≥ 0.3 ∧
    (agentW.apply_emotional_impact 0 false none).emotion.weird_mode = true :=
  ⟨rfl,
   by norm_num [agentW, AgentState.apply_emotional_impact],
   (weird_mode_hysteresis agentW 0 false none).2 rfl
     (Or.inl (by norm_num [agentW, AgentState.apply_emotional_impact]))⟩

/-- C5: FateEngine postcondition — `apply_trust_deltas_to_fate` returns
exactly `grace' = clamp01(grace + 0.02*(0.5 - grace) + delta_grace)`,
`mental_strain' = clamp01(mental_strain + delta_mental_strain - 0.03*awe +
0.03*boredom)`, `bounce_back' = clamp01(bounce_back + 0.1*((0.3 + 0.7*grace'
- 0.5*mental_strain') - bounce_back))` and `weird_mode' = (mental_strain' >
0.7 or awe + mental_strain' > 1.2)`, with no other dependence on the
inputs. -/
theorem fate_postcondition (fate : FateState) (deltas : TrustDeltas)
    (awe boredom : ℚ) :
    apply_trust_deltas_to_fate fate deltas awe boredom =
      (let g' := clamp (fate.grace + 0.02 * (0.5 - fate.grace) +
        deltas.delta_grace) 0 1
       let s' := clamp (fate.mental_strain + deltas.delta_mental_strain -
        0.03 * awe + 0.03 * boredom) 0 1
       { grace := g'
         mental_strain := s'
         bounce_back := clamp (fate.bounce_back +
           0.1 * ((0.3 + 0.7 * g' - 0.5 * s') - fate.bounce_back)) 0 1
         weird_mode := s' > 0.7 ∨ awe + s' > 1.2 }) :=
  rfl

/-- C6 amended: `roll_destiny` (fizban_fate) takes no caller
advantage/disadvantage flags and selects the mode from `weird_mode` alone —
advantage (max of two draws) when `grace - mental_strain ≥ 0`, disadvantage
(min of two draws) when negative, one draw otherwise; the flag-accepting
entry point `destiny_roll_for_agent` (fizban_world_state) honours the
caller's flags (conflicting flags cancel) and applies no weird-mode
override. -/
theorem destiny_roll_selection (fate : FateState) (al : String)
    (dc d1 d2 : ℤ) (agent : AgentRuntime) (dc' : ℤ) (adv dis : Bool)
    (e1 e2 : ℤ) :
    ((roll_destiny fate al dc d1 d2).roll_type,
      (roll_destiny fate al dc d1 d2).base_roll) =
      (if fate.weird_mode then
        if fate.grace - fate.mental_strain ≥ 0 then ("advantage", max d1 d2)
        else ("disadvantage", min d1 d2)
       else ("normal", d1)) ∧
    ((destiny_roll_for_agent agent dc' adv dis e1 e2).roll_type,
      (destiny_roll_for_agent agent dc' adv dis e1 e2).base_roll) =
      (if adv ∧ ¬dis then ("advantage", max e1 e2)
       else if dis ∧ ¬adv then ("disadvantage", min e1 e2)
       else ("normal", e1)) := by
  constructor
  · unfold roll_destiny
    dsimp only
    split_ifs <;> simp_all
  · cases adv <;> cases dis <;> simp [destiny_roll_for_agent]

/-- A weird-mode fate state with net grace − strain < 0. -/
def weirdFate : FateState :=
  { grace := 0, bounce_back := 0, mental_strain := 1, weird_mode := true }

/-- A runtime agent carrying `weirdFate`. -/
def weirdAgent : AgentRuntime :=
  { name := "pc", alignment_label := "True Neutral", fate := weirdFate }

/-- C6 counterexample: with weird_mode on and `grace - mental_strain < 0`
the claim demands a forced disadvantage (min of the draws), but
`destiny_roll_for_agent` honours the caller's advantage flag and takes the
max of the draws. -/
theorem weird_override_cex :
    weirdAgent.fate.weird_mode = true ∧
    weirdAgent.fate.grace - weirdAgent.fate.mental_strain < 0 ∧
    (destiny_roll_for_agent weirdAgent 12 true false 1 20).roll_type =
      "advantage" ∧
    (destiny_roll_for_agent weirdAgent 12 true false 1 20).base_roll = 20 ∧
    (destiny_roll_for_agent weirdAgent 12 true false 1 20).base_roll ≠
      min 1 20 := by
  refine ⟨rfl, by norm_num [weirdAgent, weirdFate], rfl, rfl, ?_⟩
  have h : (destiny_roll_for_agent weirdAgent 12 true false 1 20).base_roll =
      20 := rfl
  rw [h]
  decide

theorem char_toNat_ofNat {n : ℕ} (h : n < 55296) : (Char.ofNat n).toNat = n := by
  unfold Char.ofNat
  rw [dif_pos (Or.inl h)]
  rfl

theorem char_toUpper_idem (c : Char) : c.toUpper.toUpper = c.toUpper := by
  simp only [Char.toUpper]
  by_cases h : c.toNat ≥ 97 ∧ c.toNat ≤ 122
  · simp only [if_pos h]
    have ht : (Char.ofNat (c.toNat - 32)).toNat = c.toNat - 32 :=
      char_toNat_ofNat (by omega)
    rw [if_neg (by rw [ht]; omega)]
  · simp only [if_neg h]

theorem strUpper_idem (s : String) : strUpper (strUpper s) = strUpper s := by
  unfold strUpper
  simp only [List.map_map]
  congr 1
  exact List.map_congr_left fun a _ => char_toUpper_idem a

theorem outcomeEffects_isOk (st : TrustState ℚ) (o : String) :
    (outcomeEffects st o).isOk = true ↔
      strUpper o ∈ ["CC", "CD", "DC", "DD"] := by
  unfold outcomeEffects
  by_cases h : strUpper o ∈ ["CC", "CD", "DC", "DD"]
  · simp only [h, not_true_eq_false, if_false]
    split_ifs <;> simp [h, Except.isOk, Except.toBool]
  · simp [h, Except.isOk, Except.toBool]

theorem update_isOk_eq (st : TrustState ℚ) (o : String) (ab bb gd bn : ℚ) :
    (update_trust_state st o ab bb gd bn).isOk =
      (outcomeEffects st (strUpper o)).isOk := by
  simp only [update_trust_state]
  cases heq : outcomeEffects st (strUpper o) with
  | error e => rfl
  | ok p => obtain ⟨st', d⟩ := p; rfl

/-- C7: Error atomicity of the trust update — `update_trust_state` fails
with the `Unknown outcome` error exactly when the upper-cased outcome
argument is outside `{CC, CD, DC, DD}`; the embedding is purely functional
(the Python code raises inside `_outcome_effects`, before any new state is
constructed, and never assigns to the input dataclass), so in the error
case no field of the input state is mutated. -/
theorem invalid_outcome_atomic (st : TrustState ℚ) (o : String)
    (ab bb gd bn : ℚ) :
    (update_trust_state st o ab bb gd bn).isOk = false ↔
      strUpper o ∉ ["CC", "CD", "DC", "DD"] := by
  have h1 := outcomeEffects_isOk st (strUpper o)
  rw [strUpper_idem] at h1
  rw [update_isOk_eq, ← Bool.not_eq_true, h1]

theorem shared_interest_score_nil_left (a b : AgentState) (h : a.tags = []) :
    shared_interest_score a b = 0 := by
  unfold shared_interest_score
  rw [h, if_pos (Or.inl List.toFinset_nil)]

theorem run_round_action_a (a b : AgentState) (fa fb : Option String)
    (da db : ℚ) :
    (run_round a b fa fb da db).1.action_a =
      pickAction fa (decide_action a b (shared_interest_score a b) da) := by
  simp only [run_round]

theorem run_round_action_b (a b : AgentState) (fa fb : Option String)
    (da db : ℚ) :
    (run_round a b fa fb da db).1.action_b =
      pickAction fb (decide_action b a (shared_interest_score a b) db) := by
  simp only [run_round]

theorem run_round_trust_a_after (a b : AgentState) (fa fb : Option String)
    (da db : ℚ) :
    (run_round a b fa fb da db).1.trust_a_after =
      (a.update_trust_after_interaction b.id
        (outcome_for
          (pickAction fa (decide_action a b (shared_interest_score a b) da))
          (pickAction fb (decide_action b a (shared_interest_score a b) db))
          )).get_trust b.id := by
  simp only [run_round]
  split_ifs <;> rfl

/-- C8 counterexample: in `run_round`, an agent that defects against a
cooperating counterpart (DC) gets outcome `+1` and its trust toward the
counterpart increases from 0 to `pos_lr = 0.15` — it does not decrease. -/
theorem dc_trust_increase_cex :
    agentA0.get_trust "b" = 0 ∧
    (run_round agentA0 agentB0 (some "D") (some "C") 0 0).1.action_a = "D" ∧
    (run_round agentA0 agentB0 (some "D") (some "C") 0 0).1.action_b = "C" ∧
    (run_round agentA0 agentB0 (some "D") (some "C") 0 0).1.trust_a_after
      = 0.15 ∧
    ¬((run_round agentA0 agentB0 (some "D") (some "C") 0 0).1.trust_a_after
      < agentA0.get_trust "b") := by
  have hpa : pickAction (some "D") (decide_action agentA0 agentB0
      (shared_interest_score agentA0 agentB0) 0) = "D" := rfl
  have hpb : pickAction (some "C") (decide_action agentB0 agentA0
      (shared_interest_score agentA0 agentB0) 0) = "C" := rfl
  have hval : (agentA0.update_trust_after_interaction agentB0.id
      (outcome_for "D" "C")).get_trust agentB0.id = 0.15 := by
    norm_num +decide [AgentState.update_trust_after_interaction,
      AgentState.get_trust, outcome_for, agentA0, agentB0, setEntry,
      List.lookup]
  have htrust : (run_round agentA0 agentB0 (some "D") (some "C") 0 0).1.trust_a_after
      = 0.15 := by
    rw [run_round_trust_a_after, hpa, hpb, hval]
  refine ⟨rfl, ?_, ?_, htrust, ?_⟩
  · rw [run_round_action_a, hpa]
  · rw [run_round_action_b, hpb]
  · rw [htrust]
    norm_num [agentA0, AgentState.get_trust]

/-- C8 amended: `run_round` maps the DC outcome to the signed value `+1`
(treating the exploiting side's round as good-for-me), and
`update_trust_after_interaction` then moves the defector's trust toward the
cooperating counterpart by `+pos_lr * (1 + fate_bias_toward_trust)`
(clamped) — an increase whenever the bias exceeds `-1` and the cap is not
hit, never the small guilt decrease the spec describes (that `DC` guilt
delta exists only in `_outcome_effects` of fizban_trust_math, which
`run_round` does not call). -/
theorem dc_trust_update_amended (a : AgentState) (oid : String) :
    outcome_for "D" "C" = 1 ∧
    (a.update_trust_after_interaction oid (outcome_for "D" "C")).trust_matrix
      = setEntry a.trust_matrix oid
        (let t1 := (a.trust_matrix.lookup oid).getD 0 +
          0.15 * (1 + a.titanias_grace.fate_bias_toward_trust) * 1
         let t1 := if t1 > 1 then 1 else t1
         if t1 < -1 then -1 else t1) :=
  ⟨rfl, rfl⟩

/-- A cheater-strategy agent that fully trusts agent `"b"`. -/
def cheaterA : AgentState :=
  { id := "a", name := "A", trust_strategy := "cheater"
    trust_matrix := [("b", 1)] }

/-- A cheater-strategy agent with no trust history. -/
def cheaterN : AgentState :=
  { id := "a", name := "A", trust_strategy := "cheater" }

/-- C9 counterexample: a cheater that fully trusts its counterpart has
`p_cooperate = 1 ≥ 0.7`, so `run_round` (no forced action) makes it play
`C`, not `D`. -/
theorem cheater_plays_C_cex :
    cheaterA.trust_strategy = "cheater" ∧
    (run_round cheaterA agentB0 none none 0 0).1.action_a = "C" ∧
    (run_round cheaterA agentB0 none none 0 0).1.action_a ≠ "D" := by
  have hsi : shared_interest_score cheaterA agentB0 = 0 :=
    shared_interest_score_nil_left _ _ rfl
  have ht : cheaterA.get_trust agentB0.id = 1 := rfl
  have hab : align_bias cheaterA agentB0 0 = 0 := by
    norm_num +decide [align_bias, cheaterA, agentB0]
  have hrb : relationship_coop_bias cheaterA agentB0.id = 0 := rfl
  have hp : coopProbability cheaterA agentB0 0 = 1 := by
    unfold coopProbability
    rw [ht, hab, hrb]
    norm_num
  have hda : decide_action cheaterA agentB0 0 0 = "C" := by
    unfold decide_action
    rw [hp]
    norm_num
  have hact : (run_round cheaterA agentB0 none none 0 0).1.action_a = "C" := by
    rw [run_round_action_a, hsi]
    exact hda
  exact ⟨rfl, hact, by rw [hact]; decide⟩

/-- C9 amended: a cheater whose clamped cooperation probability stays below
the strong-cooperation threshold `0.7` always plays `D` (its baseline is
`D`, and only `p_cooperate ≥ 0.7` overrides it), both in `decide_action`
and in `run_round` without forced actions. -/
theorem cheater_plays_D_below_07 :
    (∀ (a other : AgentState) (s d : ℚ), a.trust_strategy = "cheater" →
      coopProbability a other s < 0.7 → decide_action a other s d = "D") ∧
    (∀ (a b : AgentState) (da db : ℚ), a.trust_strategy = "cheater" →
      coopProbability a b (shared_interest_score a b) < 0.7 →
      (run_round a b none none da db).1.action_a = "D") := by
  have hdec : ∀ (a other : AgentState) (s d : ℚ),
      a.trust_strategy = "cheater" → coopProbability a other s < 0.7 →
      decide_action a other s d = "D" := by
    intro a other s d h1 h2
    unfold decide_action
    rw [if_neg (not_le.mpr h2)]
    have hb : base_action_from_strategy a other.id d = "D" := by
      unfold base_action_from_strategy
      rw [h1]
      norm_num +decide
    split_ifs
    · rfl
    · exact hb
  refine ⟨hdec, fun a b da db h1 h2 => ?_⟩
  have := hdec a b (shared_interest_score a b) da h1 h2
  simp only [run_round]
  exact this

/-- Witness for C9's amended claim: a cheater with no trust history has
`p_cooperate = 0.5 < 0.7` and plays `D` in both entry points. -/
theorem cheater_plays_D_witness :
    cheaterN.trust_strategy = "cheater" ∧
    coopProbability cheaterN agentB0 0 < 0.7 ∧
    decide_action cheaterN agentB0 0 0 = "D" ∧
    coopProbability cheaterN agentB0 (shared_interest_score cheaterN agentB0)
      < 0.7 ∧
    (run_round cheaterN agentB0 none none 0 0).1.action_a = "D" := by
  have ht : cheaterN.get_trust agentB0.id = 0 := rfl
  have hab : align_bias cheaterN agentB0 0 = 0 := by
    norm_num +decide [align_bias, cheaterN, agentB0]
  have hrb : relationship_coop_bias cheaterN agentB0.id = 0 := rfl
  have hp : coopProbability cheaterN agentB0 0 < 0.7 := by
    unfold coopProbability
    rw [ht, hab, hrb]
    norm_num
  have hs : shared_interest_score cheaterN agentB0 = 0 :=
    shared_interest_score_nil_left _ _ rfl
  exact ⟨rfl, hp, cheater_plays_D_below_07.1 cheaterN agentB0 0 0 rfl hp,
    hs ▸ hp, cheater_plays_D_below_07.2 cheaterN agentB0 0 0 rfl (hs ▸ hp)⟩

theorem alignment_compatibility_nonneg (a b : AlignmentLabel) :
    0 ≤ alignment_compatibility a b := by
  unfold alignment_compatibility
  have h := min_le_right (alignment_distance a b / Real.sqrt 8) 1
  linarith

theorem alignment_compatibility_le_one (a b : AlignmentLabel) :
    alignment_compatibility a b ≤ 1 := by
  unfold alignment_compatibility
  have h : 0 ≤ min (alignment_distance a b / Real.sqrt 8) 1 :=
    le_min (div_nonneg (Real.sqrt_nonneg _) (Real.sqrt_nonneg _)) zero_le_one
  linarith

theorem alignment_compatibility_self (a : AlignmentLabel) :
    alignment_compatibility a a = 1 := by
  have h : alignmentDistSq a a = 0 := by cases a <;> decide
  unfold alignment_compatibility alignment_distance
  rw [h]
  norm_num

theorem sqrt_eight_eq : Real.sqrt 8 = 2 * Real.sqrt 2 := by
  rw [show (8 : ℝ) = 4 * 2 by norm_num,
    Real.sqrt_mul (by norm_num : (0 : ℝ) ≤ 4),
    show (4 : ℝ) = 2 ^ 2 by norm_num, Real.sqrt_sq (by norm_num : (0 : ℝ) ≤ 2)]

theorem alignment_compatibility_LG_TN :
    alignment_compatibility .lawfulGood .trueNeutral = 1 / 2 := by
  have h : alignmentDistSq .lawfulGood .trueNeutral = 2 := by decide
  unfold alignment_compatibility alignment_distance
  rw [h]
  have hne : Real.sqrt 2 ≠ 0 := ne_of_gt (Real.sqrt_pos.mpr (by norm_num))
  have h2 : Real.sqrt ((2 : ℤ) : ℝ) / Real.sqrt 8 = 1 / 2 := by
    push_cast
    rw [sqrt_eight_eq]
    field_simp
    ring
  rw [h2]
  norm_num

theorem alignment_compatibility_LG_CE :
    alignment_compatibility .lawfulGood .chaoticEvil = 0 := by
  have h : alignmentDistSq .lawfulGood .chaoticEvil = 8 := by decide
  unfold alignment_compatibility alignment_distance
  rw [h]
  have hne : Real.sqrt 8 ≠ 0 := ne_of_gt (Real.sqrt_pos.mpr (by norm_num))
  push_cast
  rw [div_self hne]
  norm_num

/-- C10: `init_trust_state` sets affinity to exactly
`2 * alignment_compatibility - 1`; identical alignments start at full
affinity +1, compatibility 1/2 (e.g. Lawful Good vs True Neutral) starts
neutral at 0, and opposite corners (Lawful Good vs Chaotic Evil) start at
-1; `betrayal_count` and `cooperation_streak` start at 0 and every
initialized field lies within its declared range. -/
theorem init_trust_state_spec :
    (∀ (a b : AlignmentLabel) (g aw bo : ℝ),
      (init_trust_state a b g aw bo).affinity =
        2 * alignment_compatibility a b - 1 ∧
      (init_trust_state a b g aw bo).betrayal_count = 0 ∧
      (init_trust_state a b g aw bo).cooperation_streak = 0 ∧
      0 ≤ alignment_compatibility a b ∧ alignment_compatibility a b ≤ 1 ∧
      -1 ≤ (init_trust_state a b g aw bo).affinity ∧
      (init_trust_state a b g aw bo).affinity ≤ 1 ∧
      -1 ≤ (init_trust_state a b g aw bo).gossip_bias ∧
      (init_trust_state a b g aw bo).gossip_bias ≤ 1 ∧
      0 ≤ (init_trust_state a b g aw bo).awe ∧
      (init_trust_state a b g aw bo).awe ≤ 1 ∧
      0 ≤ (init_trust_state a b g aw bo).boredom ∧
      (init_trust_state a b g aw bo).boredom ≤ 1) ∧
    (∀ a : AlignmentLabel, alignment_compatibility a a = 1 ∧
      (init_trust_state a a 0 0 0).affinity = 1) ∧
    (alignment_compatibility .lawfulGood .trueNeutral = 1 / 2 ∧
      (init_trust_state .lawfulGood .trueNeutral 0 0 0).affinity = 0) ∧
    (alignment_compatibility .lawfulGood .chaoticEvil = 0 ∧
      (init_trust_state .lawfulGood .chaoticEvil 0 0 0).affinity = -1) := by
  have haff : ∀ (a b : AlignmentLabel) (g aw bo : ℝ),
      (init_trust_state a b g aw bo).affinity =
        2 * alignment_compatibility a b - 1 := fun _ _ _ _ _ => rfl
  refine ⟨fun a b g aw bo => ?_, fun a => ?_, ⟨?_, ?_⟩, ⟨?_, ?_⟩⟩
  · have h0 := alignment_compatibility_nonneg a b
    have h1 := alignment_compatibility_le_one a b
    refine ⟨haff a b g aw bo, rfl, rfl, h0, h1, ?_, ?_,
      (clamp_bounds g (by norm_num)).1, (clamp_bounds g (by norm_num)).2,
      (clamp_bounds aw (by norm_num)).1, (clamp_bounds aw (by norm_num)).2,
      (clamp_bounds bo (by norm_num)).1, (clamp_bounds bo (by norm_num)).2⟩
    · rw [haff a b g aw bo]; linarith
    · rw [haff a b g aw bo]; linarith
  · exact ⟨alignment_compatibility_self a,
      by rw [haff a a 0 0 0, alignment_compatibility_self a]; norm_num⟩
  · exact alignment_compatibility_LG_TN
  · rw [haff _ _ 0 0 0, alignment_compatibility_LG_TN]; norm_num
  · exact alignment_compatibility_LG_CE
  · rw [haff _ _ 0 0 0, alignment_compatibility_LG_CE]; norm_num

end Fizban
